import Mathlib

/-! Shallow embedding of the Airtable adapter layer of the affiliate lead
dashboard (`src/lib/airtable.ts` together with `src/app/types.ts`), and
proofs about its record mapping, pagination, and comment-thread logic.

Modelling conventions:
* JavaScript runtime values occurring in Airtable `fields` maps are embedded
  as the inductive `JsVal`; finite numbers are embedded as `Rat`, non-finite
  numbers (`NaN`, `Infinity`) as the constructor `nanV`.
* `Date` values are embedded by their epoch-millisecond timestamps (`Int`);
  a record's `createdTime` string is therefore carried directly as the
  integer `new Date(createdTime).getTime()` would produce.
* `fetch` responses are embedded as `PageResp`; a transport failure or
  non-2xx response is `httpError` carrying the body's optional error message
  and the HTTP status, mirroring what `throwIfNotOk` inspects.
* JS objects are embedded as association lists with unique keys; property
  assignment is `objSet`, property lookup (yielding `undefined` when absent)
  is `getField`.
-/

namespace Airtable

/-- Embedding of the JavaScript values that can appear as Airtable field
values.  `objV i` is an object whose `id` property is `i` (`none` when the
object has no `id` property); other properties never matter to this code. -/
inductive JsVal where
  | undef
  | nullV
  | boolV (b : Bool)
  | numV (q : Rat)
  | nanV
  | strV (s : String)
  | arrV (items : List JsVal)
  | objV (id : Option JsVal)

/-- JS truthiness of an optional string (`undefined` and `""` are falsy). -/
def optTruthy : Option String → Bool
  | some s => decide (s ≠ "")
  | none => false

/-- JS truthiness of a string (only `""` is falsy). -/
def strTruthy (s : String) : Bool :=
  decide (s ≠ "")

/-- JS `a || d` for an optional string `a` and a string default `d`:
yields `d` when `a` is `undefined` or empty. -/
def jsOrDefault (v : Option String) (d : String) : String :=
  match v with
  | some s => if s = "" then d else s
  | none => d

/-- JS `String.prototype.toLowerCase`, modelled character-wise with
`Char.toLower` (exact on the ASCII strings this program compares). -/
def jsToLower (s : String) : String :=
  String.mk (s.data.map Char.toLower)

/-- Whether the second character list begins with the first. -/
def charsStartWith : List Char → List Char → Bool
  | [], _ => true
  | _ :: _, [] => false
  | p :: ps, c :: cs => p = c && charsStartWith ps cs

/-- Whether the first character list occurs contiguously in the second. -/
def charsContain (pat : List Char) : List Char → Bool
  | [] => pat.isEmpty
  | c :: rest => charsStartWith pat (c :: rest) || charsContain pat rest

/-- JS `String.prototype.includes` (substring test). -/
def jsIncludes (s pat : String) : Bool :=
  charsContain pat.data s.data

/-- The whitespace JS trimming removes, restricted to the ASCII whitespace
this program can encounter. -/
def isJsSpace (c : Char) : Bool :=
  c = ' ' || c = '\t' || c = '\n' || c = '\r'

/-- JS `String.prototype.trim`, modelled on the character list. -/
def jsTrim (s : String) : String :=
  String.mk (((s.data.dropWhile isJsSpace).reverse.dropWhile isJsSpace).reverse)

/-- Modelled builtin: JS `String(number)` on a finite number.  Exact on
integers; non-integer rationals are rendered as `num/den`, a stand-in for
the decimal rendering JS would produce (no claim depends on it). -/
def jsNumberToString (q : Rat) : String :=
  if q.den = 1 then toString q.num else toString q.num ++ "/" ++ toString q.den

/-- Reads a digit string as a natural number; `none` when empty or when a
non-digit occurs. -/
def digitsToNat : List Char → Option Nat
  | [] => none
  | cs =>
    cs.foldl
      (fun acc c =>
        match acc with
        | none => none
        | some n => if c.isDigit then some (n * 10 + (c.toNat - 48)) else none)
      (some 0)

/-- Splits a character list at its first dot, when one occurs. -/
def splitAtDot : List Char → List Char × Option (List Char)
  | [] => ([], none)
  | c :: rest =>
    if c = '.' then ([], some rest)
    else
      let r := splitAtDot rest
      (c :: r.1, r.2)

/-- Modelled builtin: JS `Number(string)` coercion, restricted to the
decimal forms this program encounters.  Trims whitespace; the empty string
coerces to `0`; an optional sign, integer digits, and an optional fraction
are accepted; anything else is `NaN` (`none`). -/
def jsStringToNumber (s : String) : Option Rat :=
  let t := (jsTrim s).data
  if t.isEmpty then some 0
  else
    let sgn : Int := if charsStartWith ['-'] t then -1 else 1
    let body : List Char :=
      if charsStartWith ['-'] t ∨ charsStartWith ['+'] t then t.drop 1 else t
    match splitAtDot body with
    | (a, none) =>
      match digitsToNat a with
      | some n => some (mkRat (sgn * (n : Int)) 1)
      | none => none
    | (a, some b) =>
      if b.contains '.' then none
      else if a.isEmpty ∧ b.isEmpty then none
      else
        let ip : Option Nat := if a.isEmpty then some 0 else digitsToNat a
        let fp : Option (Nat × Nat) :=
          if b.isEmpty then some (0, 0)
          else (digitsToNat b).map (fun n => (n, b.length))
        match ip, fp with
        | some i, some (f, k) => some (mkRat (sgn * ((i * 10 ^ k + f : Nat) : Int)) (10 ^ k))
        | _, _ => none

/-- Modelled builtin: `new Date(s).getTime()`, `none` when the date is
invalid (`NaN`).  Date strings are modelled as optionally signed integer
timestamps; no claim depends on the concrete calendar parsing. -/
def jsDateMs (s : String) : Option Int :=
  match s.data with
  | '-' :: rest => (digitsToNat rest).map (fun n => -(n : Int))
  | cs => (digitsToNat cs).map (fun n => (n : Int))

/-- JS object property lookup on an association list; absent keys read as
`undefined`. -/
def getField : List (String × JsVal) → String → JsVal
  | [], _ => .undef
  | kv :: rest, k => if kv.1 = k then kv.2 else getField rest k

/-- JS object property assignment: replaces the value at an existing key in
place, else appends the new key (JS objects keep first-insertion key order). -/
def objSet : List (String × JsVal) → String → JsVal → List (String × JsVal)
  | [], k, v => [(k, v)]
  | kv :: rest, k, v => if kv.1 = k then (k, v) :: rest else kv :: objSet rest k v

/-- `parseDate` from the source: only a truthy string is parsed; an invalid
date reads as `undefined`. -/
def parseDate (value : JsVal) : Option Int :=
  match value with
  | .strV s => if s = "" then none else jsDateMs s
  | _ => none

mutual

/-- `parseText` from the source: strings pass through, numbers are
stringified, arrays recursively stringify their items, keep the truthy
parts, and join with a comma-and-space; everything else is `undefined`. -/
def parseText : JsVal → Option String
  | .strV s => some s
  | .numV q => some (jsNumberToString q)
  | .nanV => some "NaN"
  | .arrV items =>
    let textParts := parseTextParts items
    if textParts.isEmpty then none else some (String.intercalate ", " textParts)
  | _ => none

/-- The `value.map(parseText).filter(Boolean)` step inside `parseText`'s
array case: the defined, non-empty parts in order. -/
def parseTextParts : List JsVal → List String
  | [] => []
  | v :: vs =>
    match parseText v with
    | some s => if s = "" then parseTextParts vs else s :: parseTextParts vs
    | none => parseTextParts vs

end

/-- `parseNumber` from the source: finite numbers pass through, strings go
through `Number(...)` keeping only finite results, everything else (and the
non-finite cases) yields the fallback. -/
def parseNumber (value : JsVal) (fallback : Rat) : Rat :=
  match value with
  | .numV q => q
  | .strV s =>
    match jsStringToNumber s with
    | some q => q
    | none => fallback
  | _ => fallback

/-- `LeadStatus` from `src/app/types.ts`. -/
inductive LeadStatus where
  | new
  | contacted
  | qualified
  | converted
  | lost
  | unknown
  deriving DecidableEq

/-- `normalizeStatus` from the source: lower-cases string input and matches
the five known literals; any other value yields `unknown`. -/
def normalizeStatus (raw : JsVal) : LeadStatus :=
  match raw with
  | .strV s =>
    let value := jsToLower s
    if value = "new" then .new
    else if value = "contacted" then .contacted
    else if value = "qualified" then .qualified
    else if value = "converted" then .converted
    else if value = "lost" then .lost
    else .unknown
  | _ => .unknown

/-- An Airtable record as received from the remote store; `createdTime`
carries the epoch milliseconds of the record's creation timestamp. -/
structure AirtableRecord where
  id : String
  createdTime : Int
  fields : List (String × JsVal)

/-- `Lead` from `src/app/types.ts` (dates as epoch milliseconds, the
numeric comment count as the embedded JS number type). -/
structure Lead where
  id : String
  name : String
  status : LeadStatus
  createdTime : Int
  latestUpdate : Option Int
  psRepEmail : Option String
  ccComments : Rat
  ccUpdateTime : Option Int
  leadEmail : Option String
  leadPhone : Option String
  notes : Option String
  affiliateComments : Option String

/-- `NewLeadInput` from `src/app/types.ts`. -/
structure NewLeadInput where
  name : String
  affiliateEmail : String
  leadEmail : Option String
  leadPhone : Option String
  notes : Option String
  initialMessage : Option String

/-- `AffiliateComment` from `src/app/types.ts`. -/
structure AffiliateComment where
  id : String
  text : String
  createdTime : Int
  author : Option String
  deriving DecidableEq

/-- The raw environment surface (`import.meta.env.VITE_AIRTABLE_*`); every
variable may be unset. -/
structure Env where
  airtableToken : Option String
  airtableBaseId : Option String
  airtableTableId : Option String
  nameField : Option String
  repEmailField : Option String
  statusField : Option String
  latestUpdateField : Option String
  ccCommentsField : Option String
  ccUpdateTimeField : Option String
  leadEmailField : Option String
  leadPhoneField : Option String
  notesField : Option String
  affiliateCommentsField : Option String
  affiliateCommentsTableId : Option String
  affiliateCommentLeadLinkField : Option String
  affiliateCommentTextField : Option String
  affiliateCommentAuthorField : Option String

/-- The resolved `config` object from the source. -/
structure Config where
  token : Option String
  baseId : Option String
  tableId : Option String
  fieldName : String
  fieldRepEmail : String
  fieldStatus : String
  fieldLatestUpdate : String
  fieldCcComments : String
  fieldCcUpdateTime : String
  fieldLeadEmail : Option String
  fieldLeadPhone : Option String
  fieldNotes : Option String
  fieldAffiliateComments : Option String
  affiliateCommentsTableId : String
  affiliateCommentsLeadLinkField : String
  affiliateCommentsTextField : String
  affiliateCommentsAuthorField : String

/-- The `config` initializer from the source: required settings stay
optional, field-name settings fall back through JS `||` to their default
column names. -/
def resolveConfig (e : Env) : Config :=
  { token := e.airtableToken
    baseId := e.airtableBaseId
    tableId := e.airtableTableId
    fieldName := jsOrDefault e.nameField "Name"
    fieldRepEmail := jsOrDefault e.repEmailField "PS Rep Email"
    fieldStatus := jsOrDefault e.statusField "Status"
    fieldLatestUpdate := jsOrDefault e.latestUpdateField "Latest Update"
    fieldCcComments := jsOrDefault e.ccCommentsField "CC Comments"
    fieldCcUpdateTime := jsOrDefault e.ccUpdateTimeField "CC Update Time"
    fieldLeadEmail := e.leadEmailField
    fieldLeadPhone := e.leadPhoneField
    fieldNotes := e.notesField
    fieldAffiliateComments := e.affiliateCommentsField
    affiliateCommentsTableId := jsOrDefault e.affiliateCommentsTableId "tblrMlNIChN4hKVkM"
    affiliateCommentsLeadLinkField := jsOrDefault e.affiliateCommentLeadLinkField "Lead"
    affiliateCommentsTextField := jsOrDefault e.affiliateCommentTextField "Comment"
    affiliateCommentsAuthorField := jsOrDefault e.affiliateCommentAuthorField "Created By" }

/-- `getBaseUrl` from the source: throws one fixed message when any of the
three required settings is falsy, else yields the leads endpoint. -/
def getBaseUrl (c : Config) : Except String String :=
  if optTruthy c.token && optTruthy c.baseId && optTruthy c.tableId then
    .ok ("https://api.airtable.com/v0/" ++ c.baseId.getD "" ++ "/" ++ c.tableId.getD "")
  else
    .error "Airtable config missing. Set VITE_AIRTABLE_TOKEN, VITE_AIRTABLE_BASE_ID, and VITE_AIRTABLE_TABLE_ID."

/-- `getCommentsBaseUrl` from the source. -/
def getCommentsBaseUrl (c : Config) : Except String String :=
  if optTruthy c.token && optTruthy c.baseId && strTruthy c.affiliateCommentsTableId then
    .ok ("https://api.airtable.com/v0/" ++ c.baseId.getD "" ++ "/" ++ c.affiliateCommentsTableId)
  else
    .error "Airtable comments config missing. Set VITE_AIRTABLE_TOKEN, VITE_AIRTABLE_BASE_ID, and VITE_AIRTABLE_AFFILIATE_COMMENTS_TABLE_ID."

/-- The `config.X ? parseText(fields[config.X]) : undefined` pattern used
for the optional lead columns in `mapRecordToLead`. -/
def optionalFieldText (fields : List (String × JsVal)) (key : Option String) : Option String :=
  match key with
  | some k => if k = "" then none else parseText (getField fields k)
  | none => none

/-- `mapRecordToLead` from the source. -/
def mapRecordToLead (c : Config) (record : AirtableRecord) : Lead :=
  let fields := record.fields
  { id := record.id
    name := jsOrDefault (parseText (getField fields c.fieldName)) "Unnamed Lead"
    status := normalizeStatus (getField fields c.fieldStatus)
    createdTime := record.createdTime
    latestUpdate := parseDate (getField fields c.fieldLatestUpdate)
    psRepEmail := parseText (getField fields c.fieldRepEmail)
    ccComments := parseNumber (getField fields c.fieldCcComments) 0
    ccUpdateTime := parseDate (getField fields c.fieldCcUpdateTime)
    leadEmail := optionalFieldText fields c.fieldLeadEmail
    leadPhone := optionalFieldText fields c.fieldLeadPhone
    notes := optionalFieldText fields c.fieldNotes
    affiliateComments := optionalFieldText fields c.fieldAffiliateComments }

/-- `isMessagingConfigured` from the source. -/
def isMessagingConfigured (c : Config) : Bool :=
  strTruthy c.affiliateCommentsTableId &&
    strTruthy c.affiliateCommentsLeadLinkField &&
    strTruthy c.affiliateCommentsTextField

/-- `setIfConfigured` from the source: assigns only when both the
destination column name and the value are truthy. -/
def setIfConfigured (fields : List (String × JsVal)) (key : Option String)
    (value : Option String) : List (String × JsVal) :=
  if optTruthy key && optTruthy value then
    objSet fields (key.getD "") (.strV (value.getD ""))
  else
    fields

/-- The outgoing field map built by `createLead`: the three always-sent
fields (name, rep email, the hardcoded status literal `"New"`) followed by
the four optional fields gated through `setIfConfigured`. -/
def encodeLeadFields (c : Config) (input : NewLeadInput) : List (String × JsVal) :=
  let fields := objSet (objSet (objSet [] c.fieldName (.strV input.name))
    c.fieldRepEmail (.strV input.affiliateEmail)) c.fieldStatus (.strV "New")
  let fields := setIfConfigured fields c.fieldLeadEmail input.leadEmail
  let fields := setIfConfigured fields c.fieldLeadPhone input.leadPhone
  let fields := setIfConfigured fields c.fieldNotes input.notes
  setIfConfigured fields c.fieldAffiliateComments input.initialMessage

/-- `getFirstTextField` from the source: the first candidate column whose
value parses to a defined string. -/
def getFirstTextField (fields : List (String × JsVal)) : List String → Option String
  | [] => none
  | candidate :: rest =>
    match parseText (getField fields candidate) with
    | some value => some value
    | none => getFirstTextField fields rest

/-- One response of the remote list/create endpoint: either a success page
(records plus an optional continuation token) or a non-success outcome
carrying what `throwIfNotOk` reads from it. -/
inductive PageResp where
  | ok (records : List AirtableRecord) (offset : Option String)
  | httpError (bodyMessage : Option String) (status : Nat) (statusText : String)

/-- The message `throwIfNotOk` raises for a non-success response: the body's
error message when truthy, else a generic message with the HTTP status. -/
def airtableErrorMessage (bodyMessage : Option String) (status : Nat)
    (statusText : String) : String :=
  jsOrDefault bodyMessage
    ("Airtable request failed (" ++ toString status ++ " " ++ statusText ++ ")")

/-- The `do … while (offset)` loop of `fetchAllRecords`.  Each iteration
consumes the next response of the simulated endpoint; the `Option String`
accumulated per request is the `offset` parameter that request carried.
The loop continues only while the returned offset is truthy — it stops both
when a response omits the token and when it returns the empty string.
The model's response sequence running dry while an offset is still pending
is unreachable in the situations the theorems describe and yields an
error sentinel. -/
def fetchAllRecordsGo :
    List PageResp → Option String → List AirtableRecord → List (Option String) →
      Except String (List AirtableRecord × List (Option String))
  | [], _, _, _ => .error "no response"
  | resp :: rest, off, acc, reqs =>
    match resp with
    | .httpError m s st => .error (airtableErrorMessage m s st)
    | .ok recs offNext =>
      if optTruthy offNext then
        fetchAllRecordsGo rest offNext (acc ++ recs) (reqs ++ [off])
      else
        .ok (acc ++ recs, reqs ++ [off])

/-- `fetchAllRecords` from the source, over a simulated endpoint given as
its sequence of page responses.  Returns the concatenated records together
with the offset parameter carried by each issued request. -/
def fetchAllRecords (resps : List PageResp) :
    Except String (List AirtableRecord × List (Option String)) :=
  fetchAllRecordsGo resps none [] []

/-- The per-item test inside `recordLinksToLead`'s array case: a string
item equal to the identifier, or an object whose `id` property is the
identifier string. -/
def itemLinksToLead (leadId : String) (item : JsVal) : Bool :=
  match item with
  | .strV s => decide (s = leadId)
  | .objV (some (.strV s)) => decide (s = leadId)
  | _ => false

/-- The per-field-value test inside `recordLinksToLead`: arrays scan their
items, plain strings use a substring test, everything else never links. -/
def valueLinksToLead (leadId : String) (value : JsVal) : Bool :=
  match value with
  | .arrV items => items.any (itemLinksToLead leadId)
  | .strV s => jsIncludes s leadId
  | _ => false

/-- `recordLinksToLead` from the source. -/
def recordLinksToLead (record : AirtableRecord) (leadId : String) : Bool :=
  record.fields.any (fun kv => valueLinksToLead leadId kv.2)

/-- The mapping step of `fetchAffiliateCommentsForLead`: resolve the text
through the candidate columns, resolve the author, keep the timestamp. -/
def mapRecordToComment (c : Config) (record : AirtableRecord) : AffiliateComment :=
  let text :=
    jsOrDefault
      (getFirstTextField record.fields
        [c.affiliateCommentsTextField, "Comment", "Message", "Affiliate Comment",
          "Text", "Name"])
      ""
  let author :=
    if strTruthy c.affiliateCommentsAuthorField then
      parseText (getField record.fields c.affiliateCommentsAuthorField)
    else
      getFirstTextField record.fields ["Created By", "Author", "From", "Sender"]
  { id := record.id, text := text, createdTime := record.createdTime, author := author }

/-- The ascending-by-creation-time order the comment sort uses. -/
def commentLe (a b : AffiliateComment) : Prop :=
  a.createdTime ≤ b.createdTime

instance : DecidableRel commentLe :=
  fun a b => Int.decLe a.createdTime b.createdTime

instance : IsTotal AffiliateComment commentLe :=
  ⟨fun a b => Int.le_total a.createdTime b.createdTime⟩

instance : IsTrans AffiliateComment commentLe :=
  ⟨fun _ _ _ h1 h2 => le_trans h1 h2⟩

/-- The `.map(...).filter(...).sort(...)` tail of
`fetchAffiliateCommentsForLead`; the JS comparator sort is modelled by a
stable insertion sort on the same order. -/
def commentsPipeline (c : Config) (records : List AirtableRecord) : List AffiliateComment :=
  List.insertionSort commentLe
    ((records.map (mapRecordToComment c)).filter
      (fun comment => decide (0 < (jsTrim comment.text).length)))

/-- The body of `fetchAffiliateCommentsForLead` after the two
`fetchAllRecords` calls: a failed primary fetch reads as zero records; zero
primary records select the fallback fetch, locally filtered through
`recordLinksToLead`, and the fallback's failure propagates. -/
def fetchCommentsCore (c : Config) (leadId : String)
    (primary fallback : Except String (List AirtableRecord × List (Option String))) :
    Except String (List AffiliateComment) :=
  let primaryRecords : List AirtableRecord :=
    match primary with
    | .error _ => []
    | .ok res => res.1
  if primaryRecords.isEmpty then
    match fallback with
    | .error e => .error e
    | .ok res =>
      .ok (commentsPipeline c (res.1.filter (fun r => recordLinksToLead r leadId)))
  else
    .ok (commentsPipeline c primaryRecords)

/-- `fetchAffiliateCommentsForLead` from the source, over simulated
endpoint responses for the primary (filtered) query and for the fallback
(unfiltered) query. -/
def fetchAffiliateCommentsForLead (c : Config) (leadId : String)
    (primaryResps fallbackResps : List PageResp) :
    Except String (List AffiliateComment) :=
  match getCommentsBaseUrl c with
  | .error e => .error e
  | .ok _ =>
    fetchCommentsCore c leadId (fetchAllRecords primaryResps) (fetchAllRecords fallbackResps)

/-- `fetchLeads` from the source (a single, non-paginated list request),
over the simulated response to that request. -/
def fetchLeads (c : Config) (resp : PageResp) : Except String (List Lead) :=
  match getBaseUrl c with
  | .error e => .error e
  | .ok _ =>
    match resp with
    | .httpError m s st => .error (airtableErrorMessage m s st)
    | .ok records _ => .ok (records.map (mapRecordToLead c))

/-- `createLead` from the source, over a simulated endpoint mapping the
outgoing field map to the create response. -/
def createLead (c : Config) (input : NewLeadInput)
    (server : List (String × JsVal) → PageResp) : Except String Lead :=
  match getBaseUrl c with
  | .error e => .error e
  | .ok _ =>
    let fields := encodeLeadFields c input
    match server fields with
    | .httpError m s st => .error (airtableErrorMessage m s st)
    | .ok records _ =>
      match records with
      | [] => .error "Airtable did not return created lead."
      | created :: _ => .ok (mapRecordToLead c created)

/-- An environment with every variable unset. -/
def emptyEnv : Env :=
  { airtableToken := none
    airtableBaseId := none
    airtableTableId := none
    nameField := none
    repEmailField := none
    statusField := none
    latestUpdateField := none
    ccCommentsField := none
    ccUpdateTimeField := none
    leadEmailField := none
    leadPhoneField := none
    notesField := none
    affiliateCommentsField := none
    affiliateCommentsTableId := none
    affiliateCommentLeadLinkField := none
    affiliateCommentTextField := none
    affiliateCommentAuthorField := none }

/-- The linking notion of the specification, stated in its words: some
field value is a plain string containing the identifier as a substring, or
an array one of whose elements is the identifier string or an object whose
`id` equals the identifier. -/
def linksToLeadSpec (record : AirtableRecord) (leadId : String) : Prop :=
  ∃ kv ∈ record.fields,
    (∃ s, kv.2 = JsVal.strV s ∧ jsIncludes s leadId = true) ∨
    (∃ items, kv.2 = JsVal.arrV items ∧
      ∃ item ∈ items,
        item = JsVal.strV leadId ∨ item = JsVal.objV (some (JsVal.strV leadId)))

lemma itemLinksToLead_iff (leadId : String) :
    ∀ item, itemLinksToLead leadId item = true ↔
      (item = JsVal.strV leadId ∨ item = JsVal.objV (some (JsVal.strV leadId)))
  | .undef => by simp [itemLinksToLead]
  | .nullV => by simp [itemLinksToLead]
  | .boolV b => by simp [itemLinksToLead]
  | .numV q => by simp [itemLinksToLead]
  | .nanV => by simp [itemLinksToLead]
  | .strV s => by simp [itemLinksToLead]
  | .arrV items => by simp [itemLinksToLead]
  | .objV none => by simp [itemLinksToLead]
  | .objV (some idv) => by cases idv <;> simp [itemLinksToLead]

lemma valueLinksToLead_iff (leadId : String) :
    ∀ value, valueLinksToLead leadId value = true ↔
      ((∃ s, value = JsVal.strV s ∧ jsIncludes s leadId = true) ∨
        (∃ items, value = JsVal.arrV items ∧
          ∃ item ∈ items,
            item = JsVal.strV leadId ∨ item = JsVal.objV (some (JsVal.strV leadId))))
  | .undef => by simp [valueLinksToLead]
  | .nullV => by simp [valueLinksToLead]
  | .boolV b => by simp [valueLinksToLead]
  | .numV q => by simp [valueLinksToLead]
  | .nanV => by simp [valueLinksToLead]
  | .strV s => by simp [valueLinksToLead]
  | .arrV items => by
      simp [valueLinksToLead, List.any_eq_true, itemLinksToLead_iff]
  | .objV idv => by simp [valueLinksToLead]

lemma recordLinksToLead_iff (record : AirtableRecord) (leadId : String) :
    recordLinksToLead record leadId = true ↔ linksToLeadSpec record leadId := by
  simp only [recordLinksToLead, linksToLeadSpec, List.any_eq_true]
  constructor
  · rintro ⟨kv, hmem, hlink⟩
    exact ⟨kv, hmem, (valueLinksToLead_iff leadId kv.2).1 hlink⟩
  · rintro ⟨kv, hmem, hlink⟩
    exact ⟨kv, hmem, (valueLinksToLead_iff leadId kv.2).2 hlink⟩

lemma getField_objSet_self : ∀ (fields : List (String × JsVal)) (k : String) (v : JsVal),
    getField (objSet fields k v) k = v
  | [], k, v => by simp [objSet, getField]
  | kv :: rest, k, v => by
    by_cases h : kv.1 = k
    · simp [objSet, getField, h]
    · simp [objSet, getField, h, getField_objSet_self rest k v]

lemma getField_objSet_ne : ∀ (fields : List (String × JsVal)) (k : String) (v : JsVal)
    (target : String), k ≠ target → getField (objSet fields k v) target = getField fields target
  | [], k, v, target, hne => by simp [objSet, getField, hne]
  | kv :: rest, k, v, target, hne => by
    by_cases h : kv.1 = k
    · have h2 : ¬ (k = target) := hne
      simp [objSet, getField, h, h2]
    · by_cases h3 : kv.1 = target
      · simp [objSet, getField, h, h3, hne.symm]
      · simp [objSet, getField, h, h3, getField_objSet_ne rest k v target hne]

lemma getField_setIfConfigured_ne (fields : List (String × JsVal)) (key : Option String)
    (v : Option String) (target : String) (h : ∀ k, key = some k → k ≠ target) :
    getField (setIfConfigured fields key v) target = getField fields target := by
  cases key with
  | none => simp [setIfConfigured, optTruthy]
  | some k =>
    by_cases hv : (optTruthy (some k) && optTruthy v) = true
    · rw [setIfConfigured, if_pos hv, Option.getD_some]
      exact getField_objSet_ne fields k _ target (h k rfl)
    · rw [setIfConfigured, if_neg hv]

lemma jsOrDefault_ne_empty (v : Option String) (d : String) (hd : d ≠ "") :
    jsOrDefault v d ≠ "" := by
  cases v with
  | none => simpa [jsOrDefault] using hd
  | some s =>
    by_cases hs : s = "" <;> simp [jsOrDefault, hs, hd]

lemma fetchAllRecordsGo_pages :
    ∀ (pages : List (List AirtableRecord × String)) (off : Option String)
      (acc : List AirtableRecord) (reqs : List (Option String))
      (last : List AirtableRecord), (∀ p ∈ pages, p.2 ≠ "") →
      fetchAllRecordsGo ((pages.map fun p => PageResp.ok p.1 (some p.2))
          ++ [PageResp.ok last none]) off acc reqs
        = .ok (acc ++ ((pages.map Prod.fst).flatten ++ last),
            reqs ++ (off :: pages.map fun p => some p.2))
  | [], off, acc, reqs, last, _ => by
    simp [fetchAllRecordsGo, optTruthy]
  | p :: ps, off, acc, reqs, last, h => by
    have htr : optTruthy (some p.2) = true := by
      simp [optTruthy, h p (List.mem_cons_self p ps)]
    have ih := fetchAllRecordsGo_pages ps (some p.2) (acc ++ p.1) (reqs ++ [off]) last
      (fun q hq => h q (List.mem_cons_of_mem p hq))
    simp only [List.map_cons, List.cons_append, fetchAllRecordsGo, List.append_eq,
      htr, if_true]
    rw [ih]
    simp [List.append_assoc]

lemma fetchAllRecordsGo_error :
    ∀ (pages : List (List AirtableRecord × String)) (off : Option String)
      (acc : List AirtableRecord) (reqs : List (Option String))
      (m : Option String) (s : Nat) (st : String) (rest : List PageResp),
      (∀ p ∈ pages, p.2 ≠ "") →
      fetchAllRecordsGo ((pages.map fun p => PageResp.ok p.1 (some p.2))
          ++ PageResp.httpError m s st :: rest) off acc reqs
        = .error (airtableErrorMessage m s st)
  | [], off, acc, reqs, m, s, st, rest, _ => by
    simp [fetchAllRecordsGo]
  | p :: ps, off, acc, reqs, m, s, st, rest, h => by
    have htr : optTruthy (some p.2) = true := by
      simp [optTruthy, h p (List.mem_cons_self p ps)]
    have ih := fetchAllRecordsGo_error ps (some p.2) (acc ++ p.1) (reqs ++ [off]) m s st rest
      (fun q hq => h q (List.mem_cons_of_mem p hq))
    simp only [List.map_cons, List.cons_append, fetchAllRecordsGo, List.append_eq,
      htr, if_true]
    rw [ih]

lemma getFirstTextField_eq_head (fields : List (String × JsVal)) :
    ∀ candidates : List String,
      getFirstTextField fields candidates
        = ((candidates.map (fun k => parseText (getField fields k))).filterMap id).head?
  | [] => by simp [getFirstTextField]
  | candidate :: rest => by
    cases h : parseText (getField fields candidate) with
    | none => simp [getFirstTextField, h, getFirstTextField_eq_head fields rest]
    | some v => simp [getFirstTextField, h]

lemma commentsPipeline_sorted (c : Config) (records : List AirtableRecord) :
    List.Sorted commentLe (commentsPipeline c records) :=
  List.sorted_insertionSort commentLe _

lemma commentsPipeline_all_nonempty (c : Config) (records : List AirtableRecord) :
    (commentsPipeline c records).all
      (fun comment => decide (jsTrim comment.text ≠ "")) = true := by
  simp only [List.all_eq_true, decide_eq_true_eq]
  intro comment hmem
  have hmem2 := (List.mem_insertionSort commentLe).1 hmem
  have hfilter := (List.mem_filter.1 hmem2).2
  have hlen : 0 < (jsTrim comment.text).length := by simpa using hfilter
  intro he
  rw [he] at hlen
  simp at hlen

lemma fetchComments_ok_shape (c : Config) (leadId : String)
    (primaryResps fallbackResps : List PageResp) (comments : List AffiliateComment)
    (h : fetchAffiliateCommentsForLead c leadId primaryResps fallbackResps
        = .ok comments) :
    ∃ records, comments = commentsPipeline c records := by
  unfold fetchAffiliateCommentsForLead at h
  cases hcb : getCommentsBaseUrl c with
  | error e => rw [hcb] at h; cases h
  | ok u =>
    rw [hcb] at h
    unfold fetchCommentsCore at h
    cases hp : fetchAllRecords primaryResps with
    | error e =>
      rw [hp] at h
      simp only [List.isEmpty_nil, if_true] at h
      cases hf : fetchAllRecords fallbackResps with
      | error e2 => rw [hf] at h; cases h
      | ok res =>
        rw [hf] at h
        exact ⟨_, (Except.ok.injEq _ _ ▸ h).symm⟩
    | ok res =>
      rw [hp] at h
      by_cases hempty : res.1.isEmpty
      · simp only [hempty, if_true] at h
        cases hf : fetchAllRecords fallbackResps with
        | error e2 => rw [hf] at h; cases h
        | ok res2 =>
          rw [hf] at h
          exact ⟨_, (Except.ok.injEq _ _ ▸ h).symm⟩
      · simp only [hempty, if_false] at h
        exact ⟨_, (Except.ok.injEq _ _ ▸ h).symm⟩

/-- An environment carrying only the three required settings. -/
def witEnv : Env :=
  { emptyEnv with
      airtableToken := some "tok"
      airtableBaseId := some "base"
      airtableTableId := some "tbl" }

/-- The configuration resolved from `witEnv`. -/
def witConfig : Config :=
  resolveConfig witEnv

/-- A record whose only text candidate is an earlier, empty `Comment`
column next to a non-empty `Message` column. -/
def emptyCommentRecord : AirtableRecord :=
  { id := "cmt1", createdTime := 0,
    fields := [("Comment", JsVal.strV ""), ("Message", JsVal.strV "hello")] }

/-- A record whose field map contains only `Message: "hello"`. -/
def messageOnlyRecord : AirtableRecord :=
  { id := "cmt2", createdTime := 0,
    fields := [("Message", JsVal.strV "hello")] }

/-- A record whose partner-comment count column holds the finite number
`-5`. -/
def negativeCountRecord : AirtableRecord :=
  { id := "lead-neg", createdTime := 0,
    fields := [("CC Comments", JsVal.numV (-5))] }

/-- C2 counterexample: `"NEW"` and `"new"` both normalize to `new`, but the
untrimmed `"New "` lower-cases to `"new "`, matches no literal, and
normalizes to `unknown` — not to the same status value. -/
theorem c2_counterexample :
    normalizeStatus (JsVal.strV "NEW") = LeadStatus.new ∧
    normalizeStatus (JsVal.strV "new") = LeadStatus.new ∧
    normalizeStatus (JsVal.strV "New ") = LeadStatus.unknown ∧
    normalizeStatus (JsVal.strV "New ") ≠ normalizeStatus (JsVal.strV "new") := by
  refine ⟨rfl, rfl, rfl, ?_⟩
  decide

/-- C2 (amended): status decoding lower-cases string input and matches the
five known literals; any other value (non-strings, the empty string,
numbers, null, undefined) yields `unknown`; decoding is invariant under
case change, so `"NEW"` and `"new"` normalize identically, while the
untrimmed `"New "` is not trimmed and normalizes to `unknown`. -/
theorem c2_status_normalization :
    (∀ s t : String, jsToLower s = jsToLower t →
        normalizeStatus (JsVal.strV s) = normalizeStatus (JsVal.strV t)) ∧
    (∀ v : JsVal, (∀ s, v ≠ JsVal.strV s) → normalizeStatus v = LeadStatus.unknown) ∧
    (∀ s : String, jsToLower s ≠ "new" → jsToLower s ≠ "contacted" →
        jsToLower s ≠ "qualified" → jsToLower s ≠ "converted" → jsToLower s ≠ "lost" →
        normalizeStatus (JsVal.strV s) = LeadStatus.unknown) ∧
    normalizeStatus (JsVal.strV "") = LeadStatus.unknown ∧
    normalizeStatus (JsVal.numV 7) = LeadStatus.unknown ∧
    normalizeStatus JsVal.nullV = LeadStatus.unknown ∧
    normalizeStatus JsVal.undef = LeadStatus.unknown ∧
    normalizeStatus (JsVal.strV "NEW") = LeadStatus.new ∧
    normalizeStatus (JsVal.strV "New ") = LeadStatus.unknown := by
  refine ⟨?_, ?_, ?_, rfl, rfl, rfl, rfl, rfl, rfl⟩
  · intro s t h
    simp only [normalizeStatus]
    rw [h]
  · intro v hv
    cases v with
    | strV s => exact absurd rfl (hv s)
    | undef => rfl
    | nullV => rfl
    | boolV b => rfl
    | numV q => rfl
    | nanV => rfl
    | arrV items => rfl
    | objV i => rfl
  · intro s h1 h2 h3 h4 h5
    simp [normalizeStatus, h1, h2, h3, h4, h5]

/-- C2 witness: the case-invariance conjunct applied to `"NEW"` and
`"new"`. -/
theorem c2_status_normalization_witness :
    normalizeStatus (JsVal.strV "NEW") = normalizeStatus (JsVal.strV "new") :=
  c2_status_normalization.1 "NEW" "new" rfl

/-- C3 counterexample: with the default configuration the candidate list
starts at the `Comment` column; on a record whose `Comment` is the empty
string and whose `Message` is `"hello"`, the only candidate yielding
non-empty text is `Message`, yet the resolved text is `""` — resolution
stops at the first candidate that parses to a *defined* string, not the
first that yields non-empty text. -/
theorem c3_counterexample :
    (resolveConfig emptyEnv).affiliateCommentsTextField = "Comment" ∧
    parseText (getField emptyCommentRecord.fields "Comment") = some "" ∧
    parseText (getField emptyCommentRecord.fields "Message") = some "hello" ∧
    (mapRecordToComment (resolveConfig emptyEnv) emptyCommentRecord).text = "" ∧
    (mapRecordToComment (resolveConfig emptyEnv) emptyCommentRecord).text ≠ "hello" := by
  refine ⟨rfl, rfl, rfl, rfl, ?_⟩
  decide

/-- C3 (amended): the comment text is resolved by probing the ordered
candidate list (configured text column, then `Comment`, `Message`,
`Affiliate Comment`, `Text`, `Name`) and taking the first candidate whose
field value parses to a *defined* string — which may be empty; a record
holding only `Message: "hello"` resolves to `"hello"`; when no candidate
is defined the text is empty, and empty-text comments are discarded by the
repository layer. -/
theorem c3_text_resolution :
    (∀ fields candidates,
        getFirstTextField fields candidates
          = ((candidates.map (fun k => parseText (getField fields k))).filterMap id).head?) ∧
    (mapRecordToComment (resolveConfig emptyEnv) messageOnlyRecord).text = "hello" ∧
    (∀ c record,
        getFirstTextField record.fields
            [c.affiliateCommentsTextField, "Comment", "Message", "Affiliate Comment",
              "Text", "Name"] = none →
        (mapRecordToComment c record).text = "") ∧
    (∀ c leadId primaryResps fallbackResps comments,
        fetchAffiliateCommentsForLead c leadId primaryResps fallbackResps = .ok comments →
        comments.all (fun comment => decide (comment.text ≠ "")) = true) := by
  refine ⟨getFirstTextField_eq_head, rfl, ?_, ?_⟩
  · intro c record h
    simp [mapRecordToComment, h, jsOrDefault]
  · intro c leadId primaryResps fallbackResps comments h
    obtain ⟨records, hrec⟩ := fetchComments_ok_shape c leadId primaryResps fallbackResps comments h
    subst hrec
    have hall := commentsPipeline_all_nonempty c records
    simp only [List.all_eq_true, decide_eq_true_eq] at hall ⊢
    intro comment hmem he
    exact hall comment hmem (by rw [he]; rfl)

/-- C3 witness: the discard conjunct applied to a concrete fetch whose
primary page holds one comment with text and one with none. -/
theorem c3_text_resolution_witness :
    ([mapRecordToComment witConfig messageOnlyRecord].all
        (fun comment => decide (comment.text ≠ ""))) = true :=
  c3_text_resolution.2.2.2 witConfig "lead1"
    [PageResp.ok [messageOnlyRecord] none] []
    [mapRecordToComment witConfig messageOnlyRecord] rfl

/-- C5 counterexample: the partner-comment count column holding the finite
number `-5` decodes to `-5`, a negative value — decoding does not clamp to
a non-negative integer. -/
theorem c5_counterexample :
    (mapRecordToLead (resolveConfig emptyEnv) negativeCountRecord).ccComments = -5 ∧
    ¬ (0 ≤ (mapRecordToLead (resolveConfig emptyEnv) negativeCountRecord).ccComments) := by
  refine ⟨rfl, ?_⟩
  decide

/-- C5 (amended): the count field decodes via `parseNumber` with fallback
`0`: finite numbers (including negative or fractional ones) and parseable
numeric strings decode to their numeric value, while non-numeric,
non-finite, or absent values decode to `0`; decoding is a total function
and never raises. -/
theorem c5_count_decoding :
    (∀ c record, (mapRecordToLead c record).ccComments
        = parseNumber (getField record.fields c.fieldCcComments) 0) ∧
    (∀ q : Rat, parseNumber (JsVal.numV q) 0 = q) ∧
    parseNumber JsVal.nanV 0 = 0 ∧
    parseNumber JsVal.undef 0 = 0 ∧
    parseNumber JsVal.nullV 0 = 0 ∧
    (∀ b, parseNumber (JsVal.boolV b) 0 = 0) ∧
    (∀ items, parseNumber (JsVal.arrV items) 0 = 0) ∧
    (∀ i, parseNumber (JsVal.objV i) 0 = 0) ∧
    (∀ s q, jsStringToNumber s = some q → parseNumber (JsVal.strV s) 0 = q) ∧
    (∀ s, jsStringToNumber s = none → parseNumber (JsVal.strV s) 0 = 0) ∧
    parseNumber (JsVal.strV "12") 0 = 12 ∧
    parseNumber (JsVal.strV "2.5") 0 = mkRat 25 10 ∧
    parseNumber (JsVal.strV " -7 ") 0 = -7 ∧
    parseNumber (JsVal.strV "abc") 0 = 0 ∧
    parseNumber (JsVal.strV "") 0 = 0 := by
  refine ⟨fun c record => rfl, fun q => rfl, rfl, rfl, rfl, fun b => rfl,
    fun items => rfl, fun i => rfl, ?_, ?_, by decide, by decide, by decide, rfl, rfl⟩
  · intro s q h
    simp [parseNumber, h]
  · intro s h
    simp [parseNumber, h]

/-- C5 witness: the parseable-string conjunct applied to `"7"`. -/
theorem c5_count_decoding_witness :
    parseNumber (JsVal.strV "7") 0 = 7 :=
  c5_count_decoding.2.2.2.2.2.2.2.2.1 "7" 7 (by decide)

/-- C10: the three settings `isMessagingConfigured` tests all fall back to
non-empty default literals, so the conjunction is true for every
environment. -/
theorem c10_messaging_always_configured :
    ∀ e : Env,
      isMessagingConfigured (resolveConfig e) = true ∧
      (resolveConfig e).affiliateCommentsTableId ≠ "" ∧
      (resolveConfig e).affiliateCommentsLeadLinkField ≠ "" ∧
      (resolveConfig e).affiliateCommentsTextField ≠ "" := by
  intro e
  have h1 := jsOrDefault_ne_empty e.affiliateCommentsTableId "tblrMlNIChN4hKVkM" (by decide)
  have h2 := jsOrDefault_ne_empty e.affiliateCommentLeadLinkField "Lead" (by decide)
  have h3 := jsOrDefault_ne_empty e.affiliateCommentTextField "Comment" (by decide)
  refine ⟨?_, h1, h2, h3⟩
  simp [isMessagingConfigured, strTruthy, resolveConfig, h1, h2, h3]

/-- C10 witness: the fully default environment reports messaging as
configured. -/
theorem c10_messaging_always_configured_witness :
    isMessagingConfigured (resolveConfig emptyEnv) = true :=
  (c10_messaging_always_configured emptyEnv).1

/-- A contentless record used to populate simulated pages. -/
def dummyRecord : AirtableRecord :=
  { id := "r", createdTime := 0, fields := [] }

/-- A simulated page of nine records. -/
def ninePage : List AirtableRecord :=
  List.replicate 9 dummyRecord

/-- C4 counterexample: a first page answering with the empty-string
continuation token followed by a second page of records.  The source's
`do … while (offset)` treats the empty token as falsy and stops, so the
fetcher returns only the first page's 9 records from a single request —
not the 18-record concatenation of both pages that carrying the token
`""` into a second request would produce. -/
theorem c4_counterexample :
    fetchAllRecords [PageResp.ok ninePage (some ""), PageResp.ok ninePage none]
      = .ok (ninePage, [none]) ∧
    ninePage.length = 9 ∧
    (ninePage ++ ninePage).length = 18 ∧
    ([(none : Option String)]).length = 1 ∧
    ninePage ≠ ninePage ++ ninePage := by
  refine ⟨rfl, by decide, by decide, rfl, ?_⟩
  intro h
  have hlen := congrArg List.length h
  rw [List.length_append] at hlen
  have h9 : ninePage.length = 9 := by decide
  omega

/-- C4 (amended): over page responses whose continuation tokens are all
non-empty, the fetcher returns the concatenation of all pages' records in
page order, carrying each token into the next request (the issued requests
carry `none` followed by the successive tokens) and stopping at the
response that omits the token; a falsy token — absent or the empty
string — stops the loop at that response, returning the records collected
so far from a single further request; the first non-success response
propagates immediately with the body's error message when present, else a
generic message including the HTTP status; on 3 pages of 9 records each it
returns all 27 records using exactly 3 requests. -/
theorem c4_pagination :
    (∀ (pages : List (List AirtableRecord × String)) (last : List AirtableRecord),
        (∀ p ∈ pages, p.2 ≠ "") →
        fetchAllRecords
            ((pages.map fun p => PageResp.ok p.1 (some p.2)) ++ [PageResp.ok last none])
          = .ok ((pages.map Prod.fst).flatten ++ last,
              none :: pages.map (fun p => some p.2))) ∧
    (∀ (pages : List (List AirtableRecord × String)) (m : Option String) (s : Nat)
        (st : String) (rest : List PageResp),
        (∀ p ∈ pages, p.2 ≠ "") →
        fetchAllRecords
            ((pages.map fun p => PageResp.ok p.1 (some p.2))
              ++ PageResp.httpError m s st :: rest)
          = .error (airtableErrorMessage m s st)) ∧
    (∀ (records : List AirtableRecord) (offNext : Option String) (rest : List PageResp),
        optTruthy offNext = false →
        fetchAllRecords (PageResp.ok records offNext :: rest) = .ok (records, [none])) ∧
    (∀ (msg : String) (s : Nat) (st : String), msg ≠ "" →
        airtableErrorMessage (some msg) s st = msg) ∧
    (∀ (s : Nat) (st : String),
        airtableErrorMessage none s st
          = "Airtable request failed (" ++ toString s ++ " " ++ st ++ ")") ∧
    fetchAllRecords
        [PageResp.ok ninePage (some "t1"), PageResp.ok ninePage (some "t2"),
          PageResp.ok ninePage none]
      = .ok (ninePage ++ ninePage ++ ninePage, [none, some "t1", some "t2"]) ∧
    (ninePage ++ ninePage ++ ninePage).length = 27 ∧
    ([none, some "t1", some "t2"] : List (Option String)).length = 3 := by
  refine ⟨?_, ?_, ?_, ?_, fun s st => rfl, by rfl, by decide, rfl⟩
  · intro pages last h
    have hgo := fetchAllRecordsGo_pages pages none [] [] last h
    simpa [fetchAllRecords] using hgo
  · intro pages m s st rest h
    have hgo := fetchAllRecordsGo_error pages none [] [] m s st rest h
    simpa [fetchAllRecords] using hgo
  · intro records offNext rest hfalsy
    simp [fetchAllRecords, fetchAllRecordsGo, hfalsy]
  · intro msg s st h
    simp [airtableErrorMessage, jsOrDefault, h]

/-- C4 witness: the pagination conjunct applied to two token-bearing pages
of nine records and a final page, the non-empty-token hypothesis
discharged concretely. -/
theorem c4_pagination_witness :
    fetchAllRecords
        (([(ninePage, "t1"), (ninePage, "t2")].map
            fun p => PageResp.ok p.1 (some p.2)) ++ [PageResp.ok ninePage none])
      = .ok (([(ninePage, "t1"), (ninePage, "t2")].map Prod.fst).flatten ++ ninePage,
          none :: [(ninePage, "t1"), (ninePage, "t2")].map (fun p => some p.2)) :=
  c4_pagination.1 [(ninePage, "t1"), (ninePage, "t2")] ninePage (by decide)

/-- A trimmed minimal lead input. -/
def witInput : NewLeadInput :=
  { name := "Jane", affiliateEmail := "a@b.c",
    leadEmail := none, leadPhone := none, notes := none, initialMessage := none }

/-- C7: with the configuration present, `createLead` fails with
`"Airtable did not return created lead."` exactly when the create response
carries zero records; a response with records decodes and returns the first
created record through the record mapper; a transport or non-success
response propagates as the message `throwIfNotOk` derives. -/
theorem c7_create_lead (c : Config) (input : NewLeadInput) (u : String)
    (hc : getBaseUrl c = .ok u) :
    (∀ server off, server (encodeLeadFields c input) = PageResp.ok [] off →
        createLead c input server = .error "Airtable did not return created lead.") ∧
    (∀ server created rest off,
        server (encodeLeadFields c input) = PageResp.ok (created :: rest) off →
        createLead c input server = .ok (mapRecordToLead c created)) ∧
    (∀ server m s st, server (encodeLeadFields c input) = PageResp.httpError m s st →
        createLead c input server = .error (airtableErrorMessage m s st)) ∧
    (∀ server records off, server (encodeLeadFields c input) = PageResp.ok records off →
        (createLead c input server = .error "Airtable did not return created lead."
          ↔ records = [])) := by
  refine ⟨?_, ?_, ?_, ?_⟩
  · intro server off h
    simp [createLead, hc, h]
  · intro server created rest off h
    simp [createLead, hc, h]
  · intro server m s st h
    simp [createLead, hc, h]
  · intro server records off h
    cases records with
    | nil => simp [createLead, hc, h]
    | cons created rest => simp [createLead, hc, h]

/-- C7 witness: a create response with zero records fails with the
dedicated message. -/
theorem c7_create_lead_witness :
    createLead witConfig witInput (fun _ => PageResp.ok [] none)
      = .error "Airtable did not return created lead." :=
  (c7_create_lead witConfig witInput "https://api.airtable.com/v0/base/tbl" rfl).1
    (fun _ => PageResp.ok [] none) none rfl

/-- An environment missing only the token among the required settings. -/
def envMissingToken : Env :=
  { emptyEnv with airtableBaseId := some "base", airtableTableId := some "tbl" }

/-- An environment missing only the base identifier among the required
settings. -/
def envMissingBase : Env :=
  { emptyEnv with airtableToken := some "tok", airtableTableId := some "tbl" }

/-- C9 counterexample: the configuration error raised when only the token
is missing is exactly the one raised when instead the base identifier is
missing — one fixed message naming all three required settings (it names
`VITE_AIRTABLE_BASE_ID` even when that setting is present), so the message
does not identify exactly which setting is missing. -/
theorem c9_counterexample :
    getBaseUrl (resolveConfig envMissingToken) = getBaseUrl (resolveConfig envMissingBase) ∧
    getBaseUrl (resolveConfig envMissingToken)
      = Except.error "Airtable config missing. Set VITE_AIRTABLE_TOKEN, VITE_AIRTABLE_BASE_ID, and VITE_AIRTABLE_TABLE_ID." ∧
    optTruthy (resolveConfig envMissingToken).baseId = true ∧
    jsIncludes "Airtable config missing. Set VITE_AIRTABLE_TOKEN, VITE_AIRTABLE_BASE_ID, and VITE_AIRTABLE_TABLE_ID."
        "VITE_AIRTABLE_BASE_ID" = true := by
  refine ⟨rfl, rfl, rfl, ?_⟩
  decide

/-- C9 (amended): when a required setting is missing, every operation
depending on it fails with the fixed configuration message for every
possible server response — i.e. synchronously, before any network
interaction can matter — and the message lists all the required settings of
that operation rather than identifying exactly which one is missing;
the leads-side failure occurs exactly when one of token, base id, table id
is falsy. -/
theorem c9_config_failure (c : Config) (m : String) :
    (getBaseUrl c = .error m →
      (∀ resp, fetchLeads c resp = .error m) ∧
      (∀ input server, createLead c input server = .error m) ∧
      m = "Airtable config missing. Set VITE_AIRTABLE_TOKEN, VITE_AIRTABLE_BASE_ID, and VITE_AIRTABLE_TABLE_ID.") ∧
    (getCommentsBaseUrl c = .error m →
      (∀ leadId primaryResps fallbackResps,
        fetchAffiliateCommentsForLead c leadId primaryResps fallbackResps = .error m) ∧
      m = "Airtable comments config missing. Set VITE_AIRTABLE_TOKEN, VITE_AIRTABLE_BASE_ID, and VITE_AIRTABLE_AFFILIATE_COMMENTS_TABLE_ID.") ∧
    ((∃ msg, getBaseUrl c = .error msg) ↔
      ¬ (optTruthy c.token = true ∧ optTruthy c.baseId = true ∧ optTruthy c.tableId = true)) := by
  refine ⟨?_, ?_, ?_⟩
  · intro h
    refine ⟨fun resp => ?_, fun input server => ?_, ?_⟩
    · simp [fetchLeads, h]
    · simp [createLead, h]
    · by_cases hx : (optTruthy c.token && optTruthy c.baseId && optTruthy c.tableId) = true
      · rw [getBaseUrl, if_pos hx] at h
        cases h
      · rw [getBaseUrl, if_neg hx] at h
        exact (Except.error.injEq _ _ ▸ h).symm
  · intro h
    refine ⟨fun leadId primaryResps fallbackResps => ?_, ?_⟩
    · simp [fetchAffiliateCommentsForLead, h]
    · by_cases hx : (optTruthy c.token && optTruthy c.baseId &&
          strTruthy c.affiliateCommentsTableId) = true
      · rw [getCommentsBaseUrl, if_pos hx] at h
        cases h
      · rw [getCommentsBaseUrl, if_neg hx] at h
        exact (Except.error.injEq _ _ ▸ h).symm
  · constructor
    · rintro ⟨msg, hmsg⟩ hall
      have hx : (optTruthy c.token && optTruthy c.baseId && optTruthy c.tableId) = true := by
        simp [hall.1, hall.2.1, hall.2.2]
      rw [getBaseUrl, if_pos hx] at hmsg
      cases hmsg
    · intro hall
      by_cases hx : (optTruthy c.token && optTruthy c.baseId && optTruthy c.tableId) = true
      · have hx2 := (by simpa [Bool.and_eq_true] using hx :
          (optTruthy c.token = true ∧ optTruthy c.baseId = true) ∧ optTruthy c.tableId = true)
        exact absurd ⟨hx2.1.1, hx2.1.2, hx2.2⟩ hall
      · exact ⟨_, by rw [getBaseUrl, if_neg hx]⟩

/-- C9 witness: with only the token missing, a leads fetch fails with the
fixed configuration message even though the simulated endpoint would
answer successfully. -/
theorem c9_config_failure_witness :
    fetchLeads (resolveConfig envMissingToken) (PageResp.ok [] none)
      = Except.error "Airtable config missing. Set VITE_AIRTABLE_TOKEN, VITE_AIRTABLE_BASE_ID, and VITE_AIRTABLE_TABLE_ID." :=
  ((c9_config_failure (resolveConfig envMissingToken) _).1 rfl).1 (PageResp.ok [] none)

/-- A comment record linked to `lead1` through a linked-record array of
identifier strings, created later. -/
def recA : AirtableRecord :=
  { id := "recA", createdTime := 5,
    fields := [("Comment", JsVal.strV "later"), ("Lead", JsVal.arrV [JsVal.strV "lead1"])] }

/-- A comment record linked to `lead1` through a linked-record array of
objects with `id`, created earlier. -/
def recB : AirtableRecord :=
  { id := "recB", createdTime := 2,
    fields := [("Comment", JsVal.strV "earlier"),
      ("Lead", JsVal.arrV [JsVal.objV (some (JsVal.strV "lead1"))])] }

/-- A comment record linked to a different lead. -/
def recC : AirtableRecord :=
  { id := "recC", createdTime := 1,
    fields := [("Comment", JsVal.strV "other"), ("Lead", JsVal.arrV [JsVal.strV "lead2"])] }

/-- A comment record linked to `lead1` through a plain string field, whose
text is whitespace only. -/
def recD : AirtableRecord :=
  { id := "recD", createdTime := 0,
    fields := [("Comment", JsVal.strV "   "), ("Lead", JsVal.strV "xx lead1 yy")] }

/-- C1: with the comments configuration present, a failing primary query is
treated as zero results (the outcome coincides with that of a successful
empty primary query); whenever the primary strategy yields zero records the
fallback fetch-all runs and exactly the records satisfying
`recordLinksToLead` are kept, where linking holds precisely when some field
value is a plain string containing the identifier as a substring, or an
array with an element that is the identifier string or an object whose `id`
equals it; a failing fallback fetch propagates its error. -/
theorem c1_comments_fallback (c : Config) (leadId : String) (u : String)
    (hc : getCommentsBaseUrl c = .ok u) :
    (∀ primaryResps fallbackResps e, fetchAllRecords primaryResps = .error e →
        fetchAffiliateCommentsForLead c leadId primaryResps fallbackResps
          = fetchAffiliateCommentsForLead c leadId [PageResp.ok [] none] fallbackResps) ∧
    (∀ primaryResps fallbackResps reqs frecs freqs,
        fetchAllRecords primaryResps = .ok ([], reqs) →
        fetchAllRecords fallbackResps = .ok (frecs, freqs) →
        fetchAffiliateCommentsForLead c leadId primaryResps fallbackResps
          = .ok (commentsPipeline c
              (frecs.filter (fun r => recordLinksToLead r leadId)))) ∧
    (∀ primaryResps fallbackResps reqs e,
        fetchAllRecords primaryResps = .ok ([], reqs) →
        fetchAllRecords fallbackResps = .error e →
        fetchAffiliateCommentsForLead c leadId primaryResps fallbackResps = .error e) ∧
    (∀ primaryResps fallbackResps e frecs freqs,
        fetchAllRecords primaryResps = .error e →
        fetchAllRecords fallbackResps = .ok (frecs, freqs) →
        fetchAffiliateCommentsForLead c leadId primaryResps fallbackResps
          = .ok (commentsPipeline c
              (frecs.filter (fun r => recordLinksToLead r leadId)))) ∧
    (∀ primaryResps fallbackResps e e2,
        fetchAllRecords primaryResps = .error e →
        fetchAllRecords fallbackResps = .error e2 →
        fetchAffiliateCommentsForLead c leadId primaryResps fallbackResps = .error e2) ∧
    (∀ record, recordLinksToLead record leadId = true ↔ linksToLeadSpec record leadId) := by
  refine ⟨?_, ?_, ?_, ?_, ?_, fun record => recordLinksToLead_iff record leadId⟩
  · intro primaryResps fallbackResps e hp
    have h2 : fetchAllRecords [PageResp.ok [] none] = .ok ([], [none]) := rfl
    simp [fetchAffiliateCommentsForLead, hc, hp, h2, fetchCommentsCore]
  · intro primaryResps fallbackResps reqs frecs freqs hp hf
    simp [fetchAffiliateCommentsForLead, hc, hp, hf, fetchCommentsCore]
  · intro primaryResps fallbackResps reqs e hp hf
    simp [fetchAffiliateCommentsForLead, hc, hp, hf, fetchCommentsCore]
  · intro primaryResps fallbackResps e frecs freqs hp hf
    simp [fetchAffiliateCommentsForLead, hc, hp, hf, fetchCommentsCore]
  · intro primaryResps fallbackResps e e2 hp hf
    simp [fetchAffiliateCommentsForLead, hc, hp, hf, fetchCommentsCore]

/-- C1 witness: a failing primary query followed by a two-page fallback
fetch keeps exactly the linked records. -/
theorem c1_comments_fallback_witness :
    fetchAffiliateCommentsForLead witConfig "lead1"
        [PageResp.httpError none 500 "Server Error"]
        [PageResp.ok [recA, recC] (some "t1"), PageResp.ok [recB, recD] none]
      = .ok (commentsPipeline witConfig
          ([recA, recC, recB, recD].filter (fun r => recordLinksToLead r "lead1"))) :=
  (c1_comments_fallback witConfig "lead1"
      "https://api.airtable.com/v0/base/tblrMlNIChN4hKVkM" rfl).2.2.2.1
    [PageResp.httpError none 500 "Server Error"]
    [PageResp.ok [recA, recC] (some "t1"), PageResp.ok [recB, recD] none]
    "Airtable request failed (500 Server Error)"
    [recA, recC, recB, recD] [none, some "t1"] rfl rfl

/-- C6: every successful result of `fetchAffiliateCommentsForLead` is
sorted ascending by creation time and contains no comment whose resolved
text is empty or whitespace-only. -/
theorem c6_sorted_and_nonempty (c : Config) (leadId : String)
    (primaryResps fallbackResps : List PageResp) (comments : List AffiliateComment)
    (h : fetchAffiliateCommentsForLead c leadId primaryResps fallbackResps
        = .ok comments) :
    List.Sorted commentLe comments ∧
      comments.all (fun comment => decide (jsTrim comment.text ≠ "")) = true := by
  obtain ⟨records, hrec⟩ :=
    fetchComments_ok_shape c leadId primaryResps fallbackResps comments h
  subst hrec
  exact ⟨commentsPipeline_sorted c records, commentsPipeline_all_nonempty c records⟩

/-- C6 witness: a primary page holding a later comment, an earlier comment,
and a whitespace-only comment yields the two textual comments in ascending
time order. -/
theorem c6_sorted_and_nonempty_witness :
    List.Sorted commentLe
        [mapRecordToComment witConfig recB, mapRecordToComment witConfig recA] ∧
      ([mapRecordToComment witConfig recB, mapRecordToComment witConfig recA].all
          (fun comment => decide (jsTrim comment.text ≠ ""))) = true :=
  c6_sorted_and_nonempty witConfig "lead1"
    [PageResp.ok [recA, recB, recD] none] []
    [mapRecordToComment witConfig recB, mapRecordToComment witConfig recA] rfl

lemma getField_setIfConfigured_some_ne (fields : List (String × JsVal)) (k : String)
    (v : Option String) (target : String) (h : k ≠ target) :
    getField (setIfConfigured fields (some k) v) target = getField fields target :=
  getField_setIfConfigured_ne fields (some k) v target
    (fun x hx => by injection hx with h2; exact h2 ▸ h)

/-- C8: for an input with all optional fields populated and all optional
destination columns configured (columns pairwise distinct from the three
always-sent ones), the outgoing field map always carries the name, the rep
email, and the hardcoded status literal `"New"`; unset or unconfigured
optional fields are omitted outright; and decoding the created record the
remote store echoes back recovers the same name, the same rep email, and
the status decoded from the literal `"New"`. -/
theorem c8_roundtrip (c : Config) (input : NewLeadInput) (u : String)
    (hc : getBaseUrl c = .ok u)
    (hname : input.name ≠ "")
    (vE vP vN vM : String)
    (hiE : input.leadEmail = some vE) (hvE : vE ≠ "")
    (hiP : input.leadPhone = some vP) (hvP : vP ≠ "")
    (hiN : input.notes = some vN) (hvN : vN ≠ "")
    (hiM : input.initialMessage = some vM) (hvM : vM ≠ "")
    (kE kP kN kM : String)
    (hkE : c.fieldLeadEmail = some kE) (hkEne : kE ≠ "")
    (hkP : c.fieldLeadPhone = some kP) (hkPne : kP ≠ "")
    (hkN : c.fieldNotes = some kN) (hkNne : kN ≠ "")
    (hkM : c.fieldAffiliateComments = some kM) (hkMne : kM ≠ "")
    (hbase1 : c.fieldRepEmail ≠ c.fieldName) (hbase2 : c.fieldStatus ≠ c.fieldName)
    (hbase3 : c.fieldStatus ≠ c.fieldRepEmail)
    (hE1 : kE ≠ c.fieldName) (hE2 : kE ≠ c.fieldRepEmail) (hE3 : kE ≠ c.fieldStatus)
    (hP1 : kP ≠ c.fieldName) (hP2 : kP ≠ c.fieldRepEmail) (hP3 : kP ≠ c.fieldStatus)
    (hN1 : kN ≠ c.fieldName) (hN2 : kN ≠ c.fieldRepEmail) (hN3 : kN ≠ c.fieldStatus)
    (hM1 : kM ≠ c.fieldName) (hM2 : kM ≠ c.fieldRepEmail) (hM3 : kM ≠ c.fieldStatus)
    (rid : String) (t : Int) :
    getField (encodeLeadFields c input) c.fieldName = JsVal.strV input.name ∧
    getField (encodeLeadFields c input) c.fieldRepEmail = JsVal.strV input.affiliateEmail ∧
    getField (encodeLeadFields c input) c.fieldStatus = JsVal.strV "New" ∧
    (∀ fields v, setIfConfigured fields none v = fields) ∧
    (∀ fields key, setIfConfigured fields key none = fields) ∧
    createLead c input
        (fun fields => PageResp.ok [{ id := rid, createdTime := t, fields := fields }] none)
      = .ok (mapRecordToLead c
          { id := rid, createdTime := t, fields := encodeLeadFields c input }) ∧
    (mapRecordToLead c
        { id := rid, createdTime := t, fields := encodeLeadFields c input }).name
      = input.name ∧
    (mapRecordToLead c
        { id := rid, createdTime := t, fields := encodeLeadFields c input }).psRepEmail
      = some input.affiliateEmail ∧
    (mapRecordToLead c
        { id := rid, createdTime := t, fields := encodeLeadFields c input }).status
      = LeadStatus.new := by
  have hgetN : getField (encodeLeadFields c input) c.fieldName = JsVal.strV input.name := by
    simp only [encodeLeadFields]
    rw [hkE, hkP, hkN, hkM,
      getField_setIfConfigured_some_ne _ kM _ _ hM1,
      getField_setIfConfigured_some_ne _ kN _ _ hN1,
      getField_setIfConfigured_some_ne _ kP _ _ hP1,
      getField_setIfConfigured_some_ne _ kE _ _ hE1,
      getField_objSet_ne _ _ _ _ hbase2,
      getField_objSet_ne _ _ _ _ hbase1,
      getField_objSet_self]
  have hgetR : getField (encodeLeadFields c input) c.fieldRepEmail
      = JsVal.strV input.affiliateEmail := by
    simp only [encodeLeadFields]
    rw [hkE, hkP, hkN, hkM,
      getField_setIfConfigured_some_ne _ kM _ _ hM2,
      getField_setIfConfigured_some_ne _ kN _ _ hN2,
      getField_setIfConfigured_some_ne _ kP _ _ hP2,
      getField_setIfConfigured_some_ne _ kE _ _ hE2,
      getField_objSet_ne _ _ _ _ hbase3,
      getField_objSet_self]
  have hgetS : getField (encodeLeadFields c input) c.fieldStatus = JsVal.strV "New" := by
    simp only [encodeLeadFields]
    rw [hkE, hkP, hkN, hkM,
      getField_setIfConfigured_some_ne _ kM _ _ hM3,
      getField_setIfConfigured_some_ne _ kN _ _ hN3,
      getField_setIfConfigured_some_ne _ kP _ _ hP3,
      getField_setIfConfigured_some_ne _ kE _ _ hE3,
      getField_objSet_self]
  refine ⟨hgetN, hgetR, hgetS, fun fields v => rfl, ?_, ?_, ?_, ?_, ?_⟩
  · intro fields key
    cases key <;> simp [setIfConfigured, optTruthy]
  · simp [createLead, hc]
  · simp only [mapRecordToLead]
    rw [hgetN]
    simp [parseText, jsOrDefault, hname]
  · simp only [mapRecordToLead]
    rw [hgetR]
    rfl
  · simp only [mapRecordToLead]
    rw [hgetS]
    rfl

/-- An environment configuring every optional destination column. -/
def witEnvFull : Env :=
  { witEnv with
      leadEmailField := some "Lead Email"
      leadPhoneField := some "Lead Phone"
      notesField := some "Notes"
      affiliateCommentsField := some "CC Msg" }

/-- A lead input with every optional field populated. -/
def witInputFull : NewLeadInput :=
  { name := "Jane", affiliateEmail := "a@b.c",
    leadEmail := some "l@x.y", leadPhone := some "555",
    notes := some "note", initialMessage := some "hi" }

/-- C8 witness: the round trip on a fully populated input under a fully
configured environment. -/
theorem c8_roundtrip_witness :
    createLead (resolveConfig witEnvFull) witInputFull
        (fun fields => PageResp.ok
          [{ id := "rec9", createdTime := 3, fields := fields }] none)
      = .ok (mapRecordToLead (resolveConfig witEnvFull)
          { id := "rec9", createdTime := 3,
            fields := encodeLeadFields (resolveConfig witEnvFull) witInputFull }) ∧
    (mapRecordToLead (resolveConfig witEnvFull)
        { id := "rec9", createdTime := 3,
          fields := encodeLeadFields (resolveConfig witEnvFull) witInputFull }).name
      = "Jane" ∧
    (mapRecordToLead (resolveConfig witEnvFull)
        { id := "rec9", createdTime := 3,
          fields := encodeLeadFields (resolveConfig witEnvFull) witInputFull }).psRepEmail
      = some "a@b.c" ∧
    (mapRecordToLead (resolveConfig witEnvFull)
        { id := "rec9", createdTime := 3,
          fields := encodeLeadFields (resolveConfig witEnvFull) witInputFull }).status
      = LeadStatus.new := by
  have h := c8_roundtrip (resolveConfig witEnvFull) witInputFull
    "https://api.airtable.com/v0/base/tbl" rfl (by decide)
    "l@x.y" "555" "note" "hi" rfl (by decide) rfl (by decide) rfl (by decide) rfl (by decide)
    "Lead Email" "Lead Phone" "Notes" "CC Msg"
    rfl (by decide) rfl (by decide) rfl (by decide) rfl (by decide)
    (by decide) (by decide) (by decide)
    (by decide) (by decide) (by decide)
    (by decide) (by decide) (by decide)
    (by decide) (by decide) (by decide)
    (by decide) (by decide) (by decide)
    "rec9" 3
  exact ⟨h.2.2.2.2.2.1, h.2.2.2.2.2.2.1, h.2.2.2.2.2.2.2.1, h.2.2.2.2.2.2.2.2⟩

end Airtable
